import Mathlib

/-!
Shallow embedding of the gesture-controlled particle formation engine:
the gesture classifier (`analyzeGesture` and the detection-loop state
update in `App.tsx`), the per-tick particle blending step
(`ParticleSystem`, the `useFrame` callback), and the formation samplers
(`utils/textSampler.ts`).

Modelling conventions:
- JavaScript numbers are modelled as real numbers `ℝ` (exact arithmetic);
  `Math.sin`, `Math.cos`, `Math.sqrt`, `Math.acos`, `Math.PI` become
  `Real.sin`, `Real.cos`, `Real.sqrt`, `Real.arccos`, `Real.pi`, and
  `Math.cbrt` on a nonnegative argument becomes `x ^ ((1:ℝ)/3)` (rpow).
- `Math.random()` streams are modelled as an explicit argument
  `rand : ℕ → ℝ`, indexed by the order in which the source draws them.
- Flat `Float32Array` buffers are modelled as `List ℝ` when built by the
  samplers and as functions `ℕ → ℝ` when read/written by the engine.
- JavaScript property access on a possibly-missing array element
  (`landmarks[i].y` throws a TypeError when `landmarks[i]` is undefined)
  is modelled by `List.get?` threaded through `Option.bind`: the
  classifier returns `none` exactly when an accessed index is missing,
  in which case no state update happens (the caller keeps its state).
-/

/-- One MediaPipe hand landmark in normalized image coordinates.
The source reads only the `x` and `y` fields of a landmark
(the `z` coordinate is never accessed), so only those are modelled. -/
structure Landmark where
  x : ℝ
  y : ℝ

/-- The closed gesture enumeration from `types.ts`
(`NONE = 0, ONE = 1, TWO = 2, THREE = 3, FOUR = 4`). -/
inductive GestureType where
  | NONE
  | ONE
  | TWO
  | THREE
  | FOUR
deriving DecidableEq, Repr

/-- The `HandState` interface from `types.ts`: gesture selector, openness
scalar, and 2D position (the `{x, y}` record is modelled as a pair). -/
structure HandState where
  gesture : GestureType
  openness : ℝ
  position : ℝ × ℝ

/-- The initial React state of `App`:
`{ gesture: GestureType.NONE, openness: 1.0, position: { x: 0, y: 0 } }`
(`App.tsx`, the `useState` initializer). -/
def initialHandState : HandState :=
  { gesture := GestureType.NONE, openness := 1.0, position := (0, 0) }

/-- The gesture classifier `analyzeGesture` from `App.tsx`.
Landmark accesses are performed in source order
(tip/PIP pairs 8/6, 12/10, 16/14, 20/18, then thumb landmarks 4 and 3,
then the wrist landmark 0; landmarks 4 and 8 are re-read for the
openness distance, which cannot fail once the first reads succeeded).
`none` models the TypeError thrown by `landmarks[i].y` on a missing
index, which aborts the frame before `setHandState` runs. -/
noncomputable def analyzeGesture (landmarks : List Landmark) : Option HandState :=
  (landmarks.get? 8).bind fun l8 =>
  (landmarks.get? 6).bind fun l6 =>
  (landmarks.get? 12).bind fun l12 =>
  (landmarks.get? 10).bind fun l10 =>
  (landmarks.get? 16).bind fun l16 =>
  (landmarks.get? 14).bind fun l14 =>
  (landmarks.get? 20).bind fun l20 =>
  (landmarks.get? 18).bind fun l18 =>
  (landmarks.get? 4).bind fun l4 =>
  (landmarks.get? 3).bind fun l3 =>
  (landmarks.get? 0).bind fun l0 =>
  -- isFingerUp(tip, pip) : tip.y < pip.y
  let fingersCount : ℕ :=
    (if l8.y < l6.y then 1 else 0) +
    (if l12.y < l10.y then 1 else 0) +
    (if l16.y < l14.y then 1 else 0) +
    (if l20.y < l18.y then 1 else 0)
  -- thumbUp is computed in the source but never used for the count
  let _thumbUp : Prop := l4.x < l3.x
  let gesture : GestureType :=
    if fingersCount = 1 then GestureType.ONE
    else if fingersCount = 2 then GestureType.TWO
    else if fingersCount = 3 then GestureType.THREE
    else if fingersCount = 4 then GestureType.FOUR
    else GestureType.NONE
  let distance : ℝ := Real.sqrt ((l4.x - l8.x) ^ 2 + (l4.y - l8.y) ^ 2)
  let openness : ℝ := min (max ((distance - 0.05) * 4) 0) 1.5
  let xPos : ℝ := (l0.x - 0.5) * (-2)
  let yPos : ℝ := (l0.y - 0.5) * (-2)
  some { gesture := gesture, openness := openness, position := (xPos, yPos) }

/-- One step of the detection loop (`detect` in `App.tsx`) acting on the
retained `HandState`: with no hand (`none`), only the gesture field is
reset (`setHandState(prev => ({ ...prev, gesture: GestureType.NONE }))`);
with landmarks, a successful analysis replaces the state wholesale, and a
failing landmark access leaves the previous state (no `setHandState`). -/
noncomputable def processFrame (prev : HandState) (landmarks : Option (List Landmark)) : HandState :=
  match landmarks with
  | none => { prev with gesture := GestureType.NONE }
  | some lms => (analyzeGesture lms).getD prev

/-- `PARTICLE_COUNT` from `ParticleSystem`. -/
def PARTICLE_COUNT : ℕ := 3000

/-- `LERP_SPEED` from `ParticleSystem`. -/
def LERP_SPEED : ℝ := 0.08

/-- The five precomputed target formations of `ParticleSystem`
(the `targets` memo), as flat position buffers. -/
structure Targets where
  sphere : ℕ → ℝ
  char1 : ℕ → ℝ
  char2 : ℕ → ℝ
  char3 : ℕ → ℝ
  char4 : ℕ → ℝ

/-- The target-formation switch at the top of the `useFrame` callback:
`ONE→char1, TWO→char2, THREE→char3, FOUR→char4, default→sphere`. -/
def selectTarget (hand : HandState) (targets : Targets) : ℕ → ℝ :=
  match hand.gesture with
  | GestureType.ONE => targets.char1
  | GestureType.TWO => targets.char2
  | GestureType.THREE => targets.char3
  | GestureType.FOUR => targets.char4
  | GestureType.NONE => targets.sphere

/-- Per-slot adjusted target of one `useFrame` tick (steps 1-3 of the
loop body): select the formation, then either scale by the expansion
factor and add idle noise (gesture NONE) or add the vertical text wobble
(any glyph gesture). `current` is the live position buffer: in the
source the wobble reads `positions[idx]`, and `positions` is the very
`Float32Array` installed as the geometry's position attribute
(`array={positions}`), which the lerp below mutates in place — so
`positions[idx]` is the particle's current X position. Returns the
adjusted `(tx, ty, tz)`. -/
noncomputable def adjustedTarget (hand : HandState) (targets : Targets) (t : ℝ)
    (current : ℕ → ℝ) (i : ℕ) : ℝ × ℝ × ℝ :=
  let targetPositions := selectTarget hand targets
  let idx := 3 * i
  let tx := targetPositions idx
  let ty := targetPositions (idx + 1)
  let tz := targetPositions (idx + 2)
  match hand.gesture with
  | GestureType.NONE =>
      let expansionFactor := 0.5 + hand.openness * 1.5
      let tx := tx * expansionFactor
      let ty := ty * expansionFactor
      let tz := tz * expansionFactor
      let noise := Real.sin (t + i * 0.1) * 0.2
      (tx + noise, ty + Real.cos (t * 0.5 + i * 0.05) * 0.2, tz)
  | _ =>
      (tx, ty + Real.sin (t * 2 + current idx * 0.5) * 0.05, tz)

/-- One axis of the blend update (step 4 of the `useFrame` loop body):
`current += (target - current) * LERP_SPEED`. -/
def lerpStep (current target : ℝ) : ℝ :=
  current + (target - current) * LERP_SPEED

/-- One full `useFrame` tick for particle slot `i`: the new
`(x, y, z)` of the slot, each axis lerped toward the adjusted target. -/
noncomputable def tickAt (hand : HandState) (targets : Targets) (t : ℝ)
    (current : ℕ → ℝ) (i : ℕ) : ℝ × ℝ × ℝ :=
  let idx := 3 * i
  let tgt := adjustedTarget hand targets t current i
  (lerpStep (current idx) tgt.1,
   lerpStep (current (idx + 1)) tgt.2.1,
   lerpStep (current (idx + 2)) tgt.2.2)

/-- The blend-convergence test sequence: `current = 0` initially, then
repeated `lerpStep` toward the fixed target `10`. -/
noncomputable def blendSeq : ℕ → ℝ
  | 0 => 0
  | n + 1 => lerpStep (blendSeq n) 10

/-- `generateSphereCloud` from `utils/textSampler.ts` as a flat list of
`count * 3` floats; `rand` models the `Math.random()` stream (three
draws per point, in source order: radius, theta, phi). -/
noncomputable def generateSphereCloud (rand : ℕ → ℝ) (count : ℕ) (radius : ℝ) : List ℝ :=
  (List.range count).flatMap fun i =>
    let r := radius * rand (3 * i) ^ ((1 : ℝ) / 3)
    let theta := rand (3 * i + 1) * 2 * Real.pi
    let phi := Real.arccos (2 * rand (3 * i + 2) - 1)
    [r * Real.sin phi * Real.cos theta,
     r * Real.sin phi * Real.sin theta,
     r * Real.cos phi]

/-- The fixed canvas width in `samplePointsFromText`. -/
def canvasWidth : ℕ := 200

/-- The fixed canvas height in `samplePointsFromText`. -/
def canvasHeight : ℕ := 200

/-- The filled-pixel scan of `samplePointsFromText`: for each canvas
pixel in row-major order, push `x, y` when the red channel
(`data[(y*width + x) * 4]`) exceeds 128. `data` models the
`ImageData.data` byte array obtained after rasterizing the glyph. -/
def validPixels (data : ℕ → ℕ) : List ℕ :=
  (List.range canvasHeight).flatMap fun y =>
    (List.range canvasWidth).flatMap fun x =>
      if data ((y * canvasWidth + x) * 4) > 128 then [x, y] else []

/-- `samplePointsFromText` from `utils/textSampler.ts` as a flat list of
`count * 3` floats. `ctx` models `canvas.getContext('2d')`: `none` when
the context is unavailable (early return of a fresh zero-filled
`Float32Array(count * 3)`), otherwise the rasterized pixel bytes for
the glyph (the drawing calls' effect on the canvas is outside the
repository; the byte array they produce is the model's input).
`text` and `size` only influence those bytes and are otherwise unused.
`rand` models the `Math.random()` stream: two draws per particle, in
source order (pixel selection, then depth `z`). A zero-filled buffer is
also returned when no pixel passed the brightness threshold. -/
noncomputable def samplePointsFromText (ctx : Option (ℕ → ℕ)) (rand : ℕ → ℝ)
    (text : String) (count : ℕ) (size : ℝ) : List ℝ :=
  match ctx with
  | none => List.replicate (count * 3) 0
  | some data =>
    let vp := validPixels data
    if vp.length = 0 then List.replicate (count * 3) 0
    else
      (List.range count).flatMap fun i =>
        let pixelIndex := (Int.floor (rand (2 * i) * ((vp.length : ℝ) / 2))).toNat * 2
        let px := vp.getD pixelIndex 0
        let py := vp.getD (pixelIndex + 1) 0
        let x := ((px : ℝ) - (canvasWidth : ℝ) / 2) * 0.15
        let y := -(((py : ℝ)) - (canvasHeight : ℝ) / 2) * 0.15
        let z := (rand (2 * i + 1) - 0.5) * 2
        [x, y, z]

/-- The spec's count-to-gesture table (§4.2): `0→NONE, 1→ONE, 2→TWO,
3→THREE, 4→FOUR`. Stated from the spec's words, to be compared with the
if-chain inside `analyzeGesture`. -/
def specGestureTable : ℕ → GestureType
  | 1 => GestureType.ONE
  | 2 => GestureType.TWO
  | 3 => GestureType.THREE
  | 4 => GestureType.FOUR
  | _ => GestureType.NONE

/-- Concrete 21-landmark frame with exactly two fingers up: the index
tip (8) and middle tip (12) lie above their PIPs, the ring tip (16) and
pinky tip (20) below; every other landmark sits at (0.5, 0.5). -/
def twoFingersFrame : List Landmark :=
  [⟨0.5, 0.5⟩, ⟨0.5, 0.5⟩, ⟨0.5, 0.5⟩, ⟨0.5, 0.5⟩, ⟨0.5, 0.5⟩,
   ⟨0.5, 0.5⟩, ⟨0.5, 0.5⟩, ⟨0.5, 0.5⟩, ⟨0.5, 0.3⟩, ⟨0.5, 0.5⟩,
   ⟨0.5, 0.5⟩, ⟨0.5, 0.5⟩, ⟨0.5, 0.2⟩, ⟨0.5, 0.5⟩, ⟨0.5, 0.5⟩,
   ⟨0.5, 0.5⟩, ⟨0.5, 0.7⟩, ⟨0.5, 0.5⟩, ⟨0.5, 0.5⟩, ⟨0.5, 0.5⟩,
   ⟨0.5, 0.9⟩]

/-- Concrete 21-landmark frame whose thumb tip (4) at (0.1, 0.5) and
index tip (8) at (0.275, 0.5) are exactly 0.175 apart; every other
landmark sits at (0.5, 0.5). -/
def midOpennessFrame : List Landmark :=
  [⟨0.5, 0.5⟩, ⟨0.5, 0.5⟩, ⟨0.5, 0.5⟩, ⟨0.5, 0.5⟩, ⟨0.1, 0.5⟩,
   ⟨0.5, 0.5⟩, ⟨0.5, 0.5⟩, ⟨0.5, 0.5⟩, ⟨0.275, 0.5⟩, ⟨0.5, 0.5⟩,
   ⟨0.5, 0.5⟩, ⟨0.5, 0.5⟩, ⟨0.5, 0.5⟩, ⟨0.5, 0.5⟩, ⟨0.5, 0.5⟩,
   ⟨0.5, 0.5⟩, ⟨0.5, 0.5⟩, ⟨0.5, 0.5⟩, ⟨0.5, 0.5⟩, ⟨0.5, 0.5⟩,
   ⟨0.5, 0.5⟩]

/-- Concrete 22-landmark frame (one landmark too many): all points at
(0.5, 0.5). Every index the classifier accesses is present. -/
def extraLandmarkFrame : List Landmark :=
  List.replicate 22 ⟨0.5, 0.5⟩

/-- Concrete 3-landmark frame (too short): the classifier's very first
access, `landmarks[8]`, is already out of range. -/
def shortFrame : List Landmark :=
  [⟨0.5, 0.5⟩, ⟨0.5, 0.5⟩, ⟨0.5, 0.5⟩]

/-- Forward evaluation of `analyzeGesture` once every accessed landmark
index is present: the produced `HandState`, with the finger-count
if-chain, the openness clamp and the mirrored wrist position spelled
out. Shared by the classifier claims below. -/
theorem analyzeGesture_eval (lms : List Landmark)
    (l8 l6 l12 l10 l16 l14 l20 l18 l4 l3 l0 : Landmark)
    (h8 : lms.get? 8 = some l8) (h6 : lms.get? 6 = some l6)
    (h12 : lms.get? 12 = some l12) (h10 : lms.get? 10 = some l10)
    (h16 : lms.get? 16 = some l16) (h14 : lms.get? 14 = some l14)
    (h20 : lms.get? 20 = some l20) (h18 : lms.get? 18 = some l18)
    (h4 : lms.get? 4 = some l4) (h3 : lms.get? 3 = some l3)
    (h0 : lms.get? 0 = some l0) :
    analyzeGesture lms = some
      { gesture :=
          (if ((if l8.y < l6.y then 1 else 0) +
               (if l12.y < l10.y then 1 else 0) +
               (if l16.y < l14.y then 1 else 0) +
               (if l20.y < l18.y then 1 else 0) : ℕ) = 1 then GestureType.ONE
           else if ((if l8.y < l6.y then 1 else 0) +
               (if l12.y < l10.y then 1 else 0) +
               (if l16.y < l14.y then 1 else 0) +
               (if l20.y < l18.y then 1 else 0) : ℕ) = 2 then GestureType.TWO
           else if ((if l8.y < l6.y then 1 else 0) +
               (if l12.y < l10.y then 1 else 0) +
               (if l16.y < l14.y then 1 else 0) +
               (if l20.y < l18.y then 1 else 0) : ℕ) = 3 then GestureType.THREE
           else if ((if l8.y < l6.y then 1 else 0) +
               (if l12.y < l10.y then 1 else 0) +
               (if l16.y < l14.y then 1 else 0) +
               (if l20.y < l18.y then 1 else 0) : ℕ) = 4 then GestureType.FOUR
           else GestureType.NONE),
        openness :=
          min (max ((Real.sqrt ((l4.x - l8.x) ^ 2 + (l4.y - l8.y) ^ 2) - 0.05) * 4) 0) 1.5,
        position := ((l0.x - 0.5) * (-2), (l0.y - 0.5) * (-2)) } := by
  simp only [analyzeGesture, h8, h6, h12, h10, h16, h14, h20, h18, h4, h3, h0,
    Option.some_bind]

/-- C1: for every particle slot `i` and every axis, one tick of the
blending engine updates the current position by exactly
`current' = current + (adjustedTarget - current) * 0.08`, with
`LERP_SPEED` fixed at `0.08`. -/
theorem tick_lerp_update (hand : HandState) (targets : Targets) (t : ℝ)
    (current : ℕ → ℝ) (i : ℕ) :
    tickAt hand targets t current i =
      (current (3*i) +
        ((adjustedTarget hand targets t current i).1 - current (3*i)) * 0.08,
       current (3*i+1) +
        ((adjustedTarget hand targets t current i).2.1 - current (3*i+1)) * 0.08,
       current (3*i+2) +
        ((adjustedTarget hand targets t current i).2.2 - current (3*i+2)) * 0.08)
    ∧ LERP_SPEED = 0.08 :=
  ⟨rfl, rfl⟩

/-- C2: the per-tick target of slot `i` is the sphere point scaled by
`0.5 + openness * 1.5` with `sin (t + i*0.1) * 0.2` added to X and
`cos (t*0.5 + i*0.05) * 0.2` added to Y when the gesture is NONE, and
the corresponding glyph point with `sin (t*2 + currentX*0.5) * 0.05`
added to Y (where `currentX` is the slot's current X position) when the
gesture is ONE..FOUR. -/
theorem tick_target_selection (op : ℝ) (pos : ℝ × ℝ) (targets : Targets)
    (t : ℝ) (current : ℕ → ℝ) (i : ℕ) :
    adjustedTarget ⟨GestureType.NONE, op, pos⟩ targets t current i =
      (targets.sphere (3*i) * (0.5 + op * 1.5) + Real.sin (t + i * 0.1) * 0.2,
       targets.sphere (3*i+1) * (0.5 + op * 1.5) + Real.cos (t * 0.5 + i * 0.05) * 0.2,
       targets.sphere (3*i+2) * (0.5 + op * 1.5))
    ∧ adjustedTarget ⟨GestureType.ONE, op, pos⟩ targets t current i =
      (targets.char1 (3*i),
       targets.char1 (3*i+1) + Real.sin (t * 2 + current (3*i) * 0.5) * 0.05,
       targets.char1 (3*i+2))
    ∧ adjustedTarget ⟨GestureType.TWO, op, pos⟩ targets t current i =
      (targets.char2 (3*i),
       targets.char2 (3*i+1) + Real.sin (t * 2 + current (3*i) * 0.5) * 0.05,
       targets.char2 (3*i+2))
    ∧ adjustedTarget ⟨GestureType.THREE, op, pos⟩ targets t current i =
      (targets.char3 (3*i),
       targets.char3 (3*i+1) + Real.sin (t * 2 + current (3*i) * 0.5) * 0.05,
       targets.char3 (3*i+2))
    ∧ adjustedTarget ⟨GestureType.FOUR, op, pos⟩ targets t current i =
      (targets.char4 (3*i),
       targets.char4 (3*i+1) + Real.sin (t * 2 + current (3*i) * 0.5) * 0.05,
       targets.char4 (3*i+2)) :=
  ⟨rfl, rfl, rfl, rfl, rfl⟩

/-- C5: starting from `current = 0` with fixed target `10`, the n-fold
iterate of the blend step equals `10 * (1 - 0.92^n)`; the sequence is
strictly increasing, stays below `10`, and never equals `10`. -/
theorem blend_convergence (n : ℕ) :
    blendSeq n = 10 * (1 - 0.92 ^ n)
    ∧ blendSeq n < blendSeq (n + 1)
    ∧ blendSeq n < 10
    ∧ blendSeq n ≠ 10 := by
  have closed : ∀ m, blendSeq m = 10 * (1 - 0.92 ^ m) := by
    intro m
    induction m with
    | zero => simp [blendSeq]
    | succ m ih =>
        rw [show blendSeq (m + 1) = lerpStep (blendSeq m) 10 from rfl,
          lerpStep, LERP_SPEED, ih, pow_succ]
        ring
  have hpow : (0 : ℝ) < 0.92 ^ n := pow_pos (by norm_num) n
  have hlt : blendSeq n < 10 := by rw [closed n]; nlinarith
  refine ⟨closed n, ?_, hlt, ne_of_lt hlt⟩
  rw [closed n, closed (n + 1), pow_succ]
  nlinarith

/-- C8: processing a frame with null/absent landmarks sets the gesture
to NONE while leaving openness and position exactly at their prior
values. -/
theorem no_hand_retention (prev : HandState) :
    (processFrame prev none).gesture = GestureType.NONE
    ∧ (processFrame prev none).openness = prev.openness
    ∧ (processFrame prev none).position = prev.position :=
  ⟨rfl, rfl, rfl⟩

/-- C10: before any hand frame, the `HandState` is gesture NONE,
openness 1.0, position (0, 0), so the first ticks blend toward the
sphere formation scaled by expansion factor `0.5 + 1.0*1.5 = 2.0`. -/
theorem initial_state_expansion :
    initialHandState.gesture = GestureType.NONE
    ∧ initialHandState.openness = 1
    ∧ initialHandState.position = (0, 0)
    ∧ 0.5 + initialHandState.openness * 1.5 = 2
    ∧ ∀ (targets : Targets) (t : ℝ) (current : ℕ → ℝ) (i : ℕ),
        adjustedTarget initialHandState targets t current i =
          (targets.sphere (3*i) * 2 + Real.sin (t + i * 0.1) * 0.2,
           targets.sphere (3*i+1) * 2 + Real.cos (t * 0.5 + i * 0.05) * 0.2,
           targets.sphere (3*i+2) * 2) := by
  refine ⟨rfl, by norm_num [initialHandState], rfl, by norm_num [initialHandState], ?_⟩
  intro targets t current i
  simp only [adjustedTarget, selectTarget, initialHandState]
  norm_num

/-- C3: on a 21-landmark input where exactly `k` of the four tip/PIP
pairs index(8,6), middle(12,10), ring(16,14), pinky(20,18) satisfy
`tip.y < pip.y` (thumb excluded), the classifier outputs the gesture
matching `k` per the table 0→NONE, 1→ONE, 2→TWO, 3→THREE, 4→FOUR. -/
theorem finger_count_gesture (lms : List Landmark)
    (l8 l6 l12 l10 l16 l14 l20 l18 : Landmark) (k : ℕ)
    (hlen : lms.length = 21)
    (h8 : lms.get? 8 = some l8) (h6 : lms.get? 6 = some l6)
    (h12 : lms.get? 12 = some l12) (h10 : lms.get? 10 = some l10)
    (h16 : lms.get? 16 = some l16) (h14 : lms.get? 14 = some l14)
    (h20 : lms.get? 20 = some l20) (h18 : lms.get? 18 = some l18)
    (hk : ((if l8.y < l6.y then 1 else 0) +
           (if l12.y < l10.y then 1 else 0) +
           (if l16.y < l14.y then 1 else 0) +
           (if l20.y < l18.y then 1 else 0) : ℕ) = k) :
    ∃ hs, analyzeGesture lms = some hs ∧ hs.gesture = specGestureTable k := by
  have hb4 : (4 : ℕ) < lms.length := by omega
  have hb3 : (3 : ℕ) < lms.length := by omega
  have hb0 : (0 : ℕ) < lms.length := by omega
  rw [analyzeGesture_eval lms l8 l6 l12 l10 l16 l14 l20 l18
    (lms.get ⟨4, hb4⟩) (lms.get ⟨3, hb3⟩) (lms.get ⟨0, hb0⟩)
    h8 h6 h12 h10 h16 h14 h20 h18
    (List.get?_eq_get hb4) (List.get?_eq_get hb3) (List.get?_eq_get hb0)]
  refine ⟨_, rfl, ?_⟩
  have hk4 : k ≤ 4 := by
    have e1 : (if l8.y < l6.y then (1:ℕ) else 0) ≤ 1 := by split <;> omega
    have e2 : (if l12.y < l10.y then (1:ℕ) else 0) ≤ 1 := by split <;> omega
    have e3 : (if l16.y < l14.y then (1:ℕ) else 0) ≤ 1 := by split <;> omega
    have e4 : (if l20.y < l18.y then (1:ℕ) else 0) ≤ 1 := by split <;> omega
    omega
  show (if _ = 1 then _ else _) = specGestureTable k
  rw [hk]
  interval_cases k <;> simp [specGestureTable]

/-- Witness for C3: on `twoFingersFrame` (index and middle tips above
their PIPs, ring and pinky below, thumb excluded) the classifier
outputs gesture TWO. -/
theorem finger_count_gesture_witness :
    ∃ hs, analyzeGesture twoFingersFrame = some hs ∧ hs.gesture = GestureType.TWO := by
  obtain ⟨hs, h1, h2⟩ :=
    finger_count_gesture twoFingersFrame
      ⟨0.5, 0.3⟩ ⟨0.5, 0.5⟩ ⟨0.5, 0.2⟩ ⟨0.5, 0.5⟩ ⟨0.5, 0.7⟩ ⟨0.5, 0.5⟩
      ⟨0.5, 0.9⟩ ⟨0.5, 0.5⟩ 2
      rfl rfl rfl rfl rfl rfl rfl rfl rfl (by norm_num)
  exact ⟨hs, h1, by rw [h2]; rfl⟩

/-- C4: the classifier's openness equals
`clamp((d - 0.05) * 4, 0, 1.5)` for `d` the Euclidean distance between
the thumb tip (landmark 4) and index tip (landmark 8); `d < 0.05` gives
openness 0, `d ≥ 0.425` gives 1.5, and `d = 0.175` gives 0.5. -/
theorem openness_clamp (lms : List Landmark) (l4 l8 : Landmark)
    (hlen : lms.length = 21)
    (h4 : lms.get? 4 = some l4) (h8 : lms.get? 8 = some l8) :
    ∃ hs, analyzeGesture lms = some hs ∧
      hs.openness =
        min (max ((Real.sqrt ((l4.x - l8.x) ^ 2 + (l4.y - l8.y) ^ 2) - 0.05) * 4) 0) 1.5
      ∧ (Real.sqrt ((l4.x - l8.x) ^ 2 + (l4.y - l8.y) ^ 2) < 0.05 → hs.openness = 0)
      ∧ (0.425 ≤ Real.sqrt ((l4.x - l8.x) ^ 2 + (l4.y - l8.y) ^ 2) → hs.openness = 1.5)
      ∧ (Real.sqrt ((l4.x - l8.x) ^ 2 + (l4.y - l8.y) ^ 2) = 0.175 → hs.openness = 0.5) := by
  have hb6 : (6 : ℕ) < lms.length := by omega
  have hb12 : (12 : ℕ) < lms.length := by omega
  have hb10 : (10 : ℕ) < lms.length := by omega
  have hb16 : (16 : ℕ) < lms.length := by omega
  have hb14 : (14 : ℕ) < lms.length := by omega
  have hb20 : (20 : ℕ) < lms.length := by omega
  have hb18 : (18 : ℕ) < lms.length := by omega
  have hb3 : (3 : ℕ) < lms.length := by omega
  have hb0 : (0 : ℕ) < lms.length := by omega
  rw [analyzeGesture_eval lms l8 (lms.get ⟨6, hb6⟩) (lms.get ⟨12, hb12⟩)
    (lms.get ⟨10, hb10⟩) (lms.get ⟨16, hb16⟩) (lms.get ⟨14, hb14⟩)
    (lms.get ⟨20, hb20⟩) (lms.get ⟨18, hb18⟩) l4 (lms.get ⟨3, hb3⟩)
    (lms.get ⟨0, hb0⟩)
    h8 (List.get?_eq_get hb6) (List.get?_eq_get hb12) (List.get?_eq_get hb10)
    (List.get?_eq_get hb16) (List.get?_eq_get hb14) (List.get?_eq_get hb20)
    (List.get?_eq_get hb18) h4 (List.get?_eq_get hb3) (List.get?_eq_get hb0)]
  refine ⟨_, rfl, rfl, ?_, ?_, ?_⟩
  · intro h
    show min (max ((Real.sqrt ((l4.x - l8.x) ^ 2 + (l4.y - l8.y) ^ 2) - 0.05) * 4) 0) 1.5 = 0
    have hmax : max ((Real.sqrt ((l4.x - l8.x) ^ 2 + (l4.y - l8.y) ^ 2) - 0.05) * 4) 0 = 0 :=
      max_eq_right (by nlinarith)
    rw [hmax]
    exact min_eq_left (by norm_num)
  · intro h
    show min (max ((Real.sqrt ((l4.x - l8.x) ^ 2 + (l4.y - l8.y) ^ 2) - 0.05) * 4) 0) 1.5 = 1.5
    have hmax : max ((Real.sqrt ((l4.x - l8.x) ^ 2 + (l4.y - l8.y) ^ 2) - 0.05) * 4) 0 =
        (Real.sqrt ((l4.x - l8.x) ^ 2 + (l4.y - l8.y) ^ 2) - 0.05) * 4 :=
      max_eq_left (by nlinarith)
    rw [hmax]
    exact min_eq_right (by nlinarith)
  · intro h
    show min (max ((Real.sqrt ((l4.x - l8.x) ^ 2 + (l4.y - l8.y) ^ 2) - 0.05) * 4) 0) 1.5 = 0.5
    rw [h]
    norm_num

/-- Witness for C4: on `midOpennessFrame` the thumb-index distance is
`sqrt 0.030625 = 0.175` and the classifier outputs openness 0.5. -/
theorem openness_clamp_witness :
    ∃ hs, analyzeGesture midOpennessFrame = some hs ∧ hs.openness = 0.5 := by
  obtain ⟨hs, h1, _, _, _, h5⟩ :=
    openness_clamp midOpennessFrame ⟨0.1, 0.5⟩ ⟨0.275, 0.5⟩ rfl rfl rfl
  refine ⟨hs, h1, h5 ?_⟩
  rw [show ((0.1 : ℝ) - 0.275) ^ 2 + ((0.5 : ℝ) - 0.5) ^ 2 = 0.175 ^ 2 by norm_num]
  exact Real.sqrt_sq (by norm_num)

/-- Counterexample for C9: `extraLandmarkFrame` has 22 landmarks — its
length is not 21 — yet the classifier produces a `HandState` for it:
`analyzeGesture` never validates the landmark count, it only indexes,
and every index it accesses (at most 20) is present. -/
theorem invalid_length_counterexample :
    extraLandmarkFrame.length ≠ 21
    ∧ ∃ hs, analyzeGesture extraLandmarkFrame = some hs := by
  constructor
  · simp [extraLandmarkFrame]
  · exact ⟨_, analyzeGesture_eval extraLandmarkFrame
      ⟨0.5, 0.5⟩ ⟨0.5, 0.5⟩ ⟨0.5, 0.5⟩ ⟨0.5, 0.5⟩ ⟨0.5, 0.5⟩ ⟨0.5, 0.5⟩
      ⟨0.5, 0.5⟩ ⟨0.5, 0.5⟩ ⟨0.5, 0.5⟩ ⟨0.5, 0.5⟩ ⟨0.5, 0.5⟩
      rfl rfl rfl rfl rfl rfl rfl rfl rfl rfl rfl⟩

/-- Helper: an `Option.bind` whose continuation is constantly `none`
is `none`. -/
theorem bind_none_of_forall {α β : Type} (o : Option α) (f : α → Option β)
    (h : ∀ a, f a = none) : o.bind f = none := by
  cases o with
  | none => rfl
  | some a => exact h a

/-- C9 as amended: the classifier has no explicit length validation.
An input missing a required landmark index — equivalently, of length
below 21, since the largest accessed index is 20 — fails at the access
and produces no `HandSignal` for that frame (so the caller retains the
previous signal); any input of length 21 or more produces a signal. -/
theorem invalid_length_no_signal (lms : List Landmark) :
    (lms.length < 21 → analyzeGesture lms = none)
    ∧ (21 ≤ lms.length → ∃ hs, analyzeGesture lms = some hs) := by
  constructor
  · intro h
    have h20 : lms.get? 20 = none := List.get?_eq_none.mpr (by omega)
    unfold analyzeGesture
    apply bind_none_of_forall; intro l8
    apply bind_none_of_forall; intro l6
    apply bind_none_of_forall; intro l12
    apply bind_none_of_forall; intro l10
    apply bind_none_of_forall; intro l16
    apply bind_none_of_forall; intro l14
    rw [h20]
    rfl
  · intro h
    have hb : ∀ j, j < 21 → j < lms.length := fun j hj => lt_of_lt_of_le hj h
    exact ⟨_, analyzeGesture_eval lms _ _ _ _ _ _ _ _ _ _ _
      (List.get?_eq_get (hb 8 (by norm_num))) (List.get?_eq_get (hb 6 (by norm_num)))
      (List.get?_eq_get (hb 12 (by norm_num))) (List.get?_eq_get (hb 10 (by norm_num)))
      (List.get?_eq_get (hb 16 (by norm_num))) (List.get?_eq_get (hb 14 (by norm_num)))
      (List.get?_eq_get (hb 20 (by norm_num))) (List.get?_eq_get (hb 18 (by norm_num)))
      (List.get?_eq_get (hb 4 (by norm_num))) (List.get?_eq_get (hb 3 (by norm_num)))
      (List.get?_eq_get (hb 0 (by norm_num)))⟩

/-- Witness for the amended C9: the 3-landmark `shortFrame` yields no
signal, while the 22-landmark `extraLandmarkFrame` yields one. -/
theorem invalid_length_no_signal_witness :
    analyzeGesture shortFrame = none
    ∧ ∃ hs, analyzeGesture extraLandmarkFrame = some hs :=
  ⟨(invalid_length_no_signal shortFrame).1 (by simp [shortFrame]),
   (invalid_length_no_signal extraLandmarkFrame).2 (by simp [extraLandmarkFrame])⟩

/-- Helper: a `flatMap` over `List.range n` whose body always yields
three elements has length `n * 3`. -/
theorem length_flatMap_triples {α : Type} (n : ℕ) (f : ℕ → List α)
    (h : ∀ i, (f i).length = 3) : ((List.range n).flatMap f).length = n * 3 := by
  rw [List.length_flatMap]
  have hc : (List.length ∘ f) = fun _ => 3 := by funext i; simp [h]
  simp [hc, List.map_const]

/-- Helper: `generateSphereCloud` always yields `count * 3` floats. -/
theorem generateSphereCloud_length (rand : ℕ → ℝ) (count : ℕ) (radius : ℝ) :
    (generateSphereCloud rand count radius).length = count * 3 := by
  rw [generateSphereCloud]
  exact length_flatMap_triples count _ (fun i => rfl)

/-- Helper: `samplePointsFromText` always yields `count * 3` floats, in
all three branches (no context, no filled pixel, sampling). -/
theorem samplePointsFromText_length (ctx : Option (ℕ → ℕ)) (rand : ℕ → ℝ)
    (text : String) (count : ℕ) (size : ℝ) :
    (samplePointsFromText ctx rand text count size).length = count * 3 := by
  cases ctx with
  | none => simp [samplePointsFromText]
  | some data =>
      by_cases hvp : (validPixels data).length = 0
      · simp [samplePointsFromText, hvp]
      · simp only [samplePointsFromText, if_neg hvp]
        exact length_flatMap_triples count _ (fun i => rfl)

/-- C6: every formation produced by the samplers is a buffer of exactly
`count * 3` floats (i.e. `count` points), for every input — including
both zero-fallback branches — and in particular all five formations
built at initialization have exactly `PARTICLE_COUNT = 3000` points. -/
theorem formation_length_invariant :
    (∀ (rand : ℕ → ℝ) (count : ℕ) (radius : ℝ),
      (generateSphereCloud rand count radius).length = count * 3)
    ∧ (∀ (ctx : Option (ℕ → ℕ)) (rand : ℕ → ℝ) (text : String) (count : ℕ) (size : ℝ),
      (samplePointsFromText ctx rand text count size).length = count * 3)
    ∧ PARTICLE_COUNT = 3000
    ∧ (∀ rand, (generateSphereCloud rand PARTICLE_COUNT 8).length = PARTICLE_COUNT * 3)
    ∧ (∀ ctx rand, (samplePointsFromText ctx rand "生" PARTICLE_COUNT 140).length = PARTICLE_COUNT * 3)
    ∧ (∀ ctx rand, (samplePointsFromText ctx rand "日" PARTICLE_COUNT 140).length = PARTICLE_COUNT * 3)
    ∧ (∀ ctx rand, (samplePointsFromText ctx rand "快" PARTICLE_COUNT 140).length = PARTICLE_COUNT * 3)
    ∧ (∀ ctx rand, (samplePointsFromText ctx rand "乐" PARTICLE_COUNT 140).length = PARTICLE_COUNT * 3) :=
  ⟨generateSphereCloud_length,
   samplePointsFromText_length,
   rfl,
   fun rand => generateSphereCloud_length rand PARTICLE_COUNT 8,
   fun ctx rand => samplePointsFromText_length ctx rand "生" PARTICLE_COUNT 140,
   fun ctx rand => samplePointsFromText_length ctx rand "日" PARTICLE_COUNT 140,
   fun ctx rand => samplePointsFromText_length ctx rand "快" PARTICLE_COUNT 140,
   fun ctx rand => samplePointsFromText_length ctx rand "乐" PARTICLE_COUNT 140⟩

/-- Helper: when every red-channel byte is at most 128, no pixel passes
the strict brightness threshold and the filled-pixel scan is empty. -/
theorem validPixels_eq_nil_of_dark (data : ℕ → ℕ) (h : ∀ j, data j ≤ 128) :
    validPixels data = [] := by
  unfold validPixels
  refine List.flatMap_eq_nil_iff.mpr (fun y _ => ?_)
  refine List.flatMap_eq_nil_iff.mpr (fun x _ => ?_)
  rw [if_neg (Nat.not_lt.mpr (h _))]

/-- C7: with no canvas context, or when rasterization yields zero
filled pixels (no byte strictly above 128), `samplePointsFromText`
returns the zero-filled buffer of the required length — a defined
fallback value, not an error. -/
theorem degraded_sampling_fallback (ctx : Option (ℕ → ℕ)) (rand : ℕ → ℝ)
    (text : String) (count : ℕ) (size : ℝ)
    (h : ctx = none ∨ ∃ data, ctx = some data ∧ validPixels data = []) :
    samplePointsFromText ctx rand text count size = List.replicate (count * 3) 0 := by
  rcases h with h | ⟨data, h, hvp⟩
  · rw [h]; rfl
  · rw [h]; simp [samplePointsFromText, hvp]

/-- Witness for C7: both fallback branches at `count = 2` — a missing
context and an all-dark canvas — give the six-zero buffer. -/
theorem degraded_sampling_fallback_witness :
    samplePointsFromText none (fun _ => 0) "生" 2 140 = List.replicate 6 0
    ∧ samplePointsFromText (some (fun _ => 0)) (fun _ => 0) "生" 2 140 = List.replicate 6 0 :=
  ⟨degraded_sampling_fallback none (fun _ => 0) "生" 2 140 (Or.inl rfl),
   degraded_sampling_fallback (some (fun _ => 0)) (fun _ => 0) "生" 2 140
     (Or.inr ⟨fun _ => 0, rfl, validPixels_eq_nil_of_dark (fun _ => 0) (fun _ => by norm_num)⟩)⟩
